import Mathlib

/-!
Verification of the document-summary core: the prompt builder
(`prompts.py`) and the NVIDIA REST client wrapper (`nvidia_client.py`).

The Python source is shallowly embedded below.  Python strings are
`String`, `str.strip()` becomes `pyStrip` (drop whitespace on both
ends), Python `or` on strings becomes `pyOrStr`, decoded JSON values
become the inductive `JVal`, exceptions become `Except`, and machine
integers are `Int`.
-/

set_option maxRecDepth 8000

namespace DocSummary

/-! ## Python string primitives -/

/-- Whitespace test used by `str.strip()`. -/
def wsChar (c : Char) : Bool := c.isWhitespace

/-- Embedding of Python `s.strip()`: remove leading and trailing whitespace. -/
def pyStrip (s : String) : String :=
  ⟨List.rdropWhile wsChar (List.dropWhile wsChar s.data)⟩

/-- Embedding of Python `a or b` for strings: `a` if non-empty, else `b`. -/
def pyOrStr (a b : String) : String := if a = "" then b else a

/-- Embedding of Python `s[:m]` (slice from the start, `m : Int` as in Python,
negative indices count from the end). -/
def pySliceTo (l : List Char) (m : Int) : List Char :=
  if 0 ≤ m then l.take m.toNat else l.take ((l.length : Int) + m).toNat

/-- Embedding of Python `s.startswith(pre)`. -/
def pyStartswith (s pre : String) : Bool := pre.data.isPrefixOf s.data

/-- The Prop that `sub` occurs somewhere inside `s` (Python `sub in s`). -/
def StrContains (s sub : String) : Prop := sub.data <:+: s.data

instance (s sub : String) : Decidable (StrContains s sub) :=
  List.decidableInfix sub.data s.data

/-! ## prompts.py -/

/-- Literal appended by `build_summarization_prompt` when the input is cut
(`"\n\n[...truncated for demo...]"`). -/
def truncationMarker : String := "\n\n[...truncated for demo...]"

/-- The `length_map` dict of `prompts.py`. -/
def length_map : List (String × String) :=
  [("short", "about 120-150 words"),
   ("medium", "about 200-300 words"),
   ("detailed", "about 400-600 words")]

/-- The `tone_map` dict of `prompts.py`. -/
def tone_map : List (String × String) :=
  [("neutral", "neutral, objective"),
   ("professional", "concise, business-professional"),
   ("casual", "friendly, plain-language")]

/-- Embedding of Python `d.get(key, dflt)` for a string-valued dict. -/
def dictGetD (d : List (String × String)) (key dflt : String) : String :=
  match d.find? (fun p => p.fst == key) with
  | some p => p.snd
  | none => dflt

/-- Title formatting instruction from `prompts.py`. -/
def titleInstruction : String :=
  "Start with a single-line Title that captures the main topic."

/-- Bullet-point formatting instruction from `prompts.py`. -/
def bulletInstruction : String :=
  "Use bullet points for key takeaways."

/-- First always-appended instruction from `prompts.py`. -/
def speculationInstruction : String :=
  "Avoid speculation. Preserve the original meaning."

/-- Second always-appended instruction from `prompts.py`. -/
def summarizableInstruction : String :=
  "If the input is not summarizable, say so briefly."

/-- The `format_instructions` list assembled by `build_summarization_prompt`:
title instruction iff `include_title`, bullet instruction iff
`bullet_points`, then the two fixed instructions. -/
def format_instructions (bullet_points include_title : Bool) : List String :=
  (if include_title then [titleInstruction] else []) ++
  (if bullet_points then [bulletInstruction] else []) ++
  [speculationInstruction, summarizableInstruction]

/-- The normalize-and-truncate step of `build_summarization_prompt`:
`text = (doc_text or "").strip()` followed by
`if len(text) > max_chars: text = text[:max_chars] + marker`. -/
def docSegment (doc_text : String) (max_chars : Int) : String :=
  let text := pyStrip (pyOrStr doc_text "")
  if (text.length : Int) > max_chars then
    String.mk (pySliceTo text.data max_chars) ++ truncationMarker
  else text

/-- Embedding of `build_summarization_prompt` from `prompts.py`.  The final
f-string is written out literally; `' '.join` is `String.intercalate " "`. -/
def build_summarization_prompt (doc_text length tone : String)
    (bullet_points include_title : Bool) (max_chars : Int) : String :=
  let text := docSegment doc_text max_chars
  let lengthGuidance := dictGetD length_map length "about 150 words"
  let toneGuidance := dictGetD tone_map tone "neutral"
  let joined := String.intercalate " " (format_instructions bullet_points include_title)
  pyStrip
    ("\nYou are a helpful assistant that produces accurate, faithful summaries.\n\nGoal: Summarize the user\x27s document.\nTarget length: "
      ++ lengthGuidance
      ++ "\nTone: "
      ++ toneGuidance
      ++ "\nFormatting:\n- "
      ++ joined
      ++ "\n\nDocument:\n"
      ++ text
      ++ "\n")

/-! ## JSON values as decoded by `json` / `resp.json()` -/

/-- A decoded Python JSON value (`None`, `bool`, number, `str`, `list`,
`dict`). -/
inductive JVal where
  | null : JVal
  | bool (b : Bool) : JVal
  | num (n : Int) : JVal
  | str (s : String) : JVal
  | arr (elems : List JVal) : JVal
  | obj (fields : List (String × JVal)) : JVal

/-- Python truthiness of a decoded JSON value. -/
def truthy : JVal → Bool
  | JVal.null => false
  | JVal.bool b => b
  | JVal.num n => decide (n ≠ 0)
  | JVal.str s => decide (s ≠ "")
  | JVal.arr elems => !elems.isEmpty
  | JVal.obj fields => !fields.isEmpty

/-- Embedding of Python `a or b` on JSON values: `a` if truthy, else `b`. -/
def pyOr (a b : JVal) : JVal := if truthy a then a else b

/-- A key of `_get_nested`'s path: a dict key or a list index. -/
inductive PKey where
  | s (key : String) : PKey
  | i (idx : Int) : PKey

/-- Python list indexing `xs[i]` (negative indices count from the end);
`none` models the `IndexError` that `_get_nested` catches. -/
def pyListGet (xs : List JVal) (i : Int) : Option JVal :=
  if 0 ≤ i then xs.get? i.toNat
  else if -(xs.length : Int) ≤ i then xs.get? ((xs.length : Int) + i).toNat
  else none

/-- Python `dict.get(key)`: the value, or `None` when absent. -/
def objGet (fields : List (String × JVal)) (key : String) : JVal :=
  match fields.find? (fun p => p.fst == key) with
  | some p => p.snd
  | none => JVal.null

/-- Embedding of `NvidiaLLMClient._get_nested`.  A failed step returns
Python `None` (`JVal.null`), exactly as the source's `return None`:
decoded JSON `null` and a failed lookup are the same Python object. -/
def _get_nested : JVal → List PKey → JVal
  | cur, [] => cur
  | JVal.arr xs, PKey.i k :: rest =>
    match pyListGet xs k with
    | some v => _get_nested v rest
    | none => JVal.null
  | JVal.obj fields, PKey.s k :: rest => _get_nested (objGet fields k) rest
  | _, _ :: _ => JVal.null

/-- Python `data.get(key)` at top level: raises `AttributeError` (the
`Except.error`) unless `data` is a dict. -/
def topGet (data : JVal) (key : String) : Except Unit JVal :=
  match data with
  | JVal.obj fields => Except.ok (objGet fields key)
  | _ => Except.error ()

/-- Path (a) of `summarize_text`: `choices[0].message.content`. -/
def pathA : List PKey := [PKey.s "choices", PKey.i 0, PKey.s "message", PKey.s "content"]

/-- Path (b) of `summarize_text`: `choices[0].text`. -/
def pathB : List PKey := [PKey.s "choices", PKey.i 0, PKey.s "text"]

/-- The `or`-chain of `summarize_text` that locates the completion text:
`_get_nested(data, a) or _get_nested(data, b) or data.get("output_text")
or data.get("text")`, with Python's left-to-right short-circuit; an
`Except.error` is the uncaught `AttributeError` of `.get` on a non-dict. -/
def extractContent (data : JVal) : Except Unit JVal :=
  let a := _get_nested data pathA
  if truthy a then Except.ok a
  else
    let b := _get_nested data pathB
    if truthy b then Except.ok b
    else
      match topGet data "output_text" with
      | Except.error e => Except.error e
      | Except.ok c =>
        if truthy c then Except.ok c
        else topGet data "text"

/-- The value of the `or`-chain when the body is a dict, written with
Python `or` directly: the first truthy lookup wins, in the order
`choices[0].message.content`, `choices[0].text`, `output_text`, `text`. -/
def chainVal (fields : List (String × JVal)) : JVal :=
  pyOr (_get_nested (JVal.obj fields) pathA)
    (pyOr (_get_nested (JVal.obj fields) pathB)
      (pyOr (objGet fields "output_text") (objGet fields "text")))

/-- Error body attached to a non-200 failure: the parsed JSON if the body
parses, else the raw text. -/
inductive ErrBody where
  | jsonBody (v : JVal) : ErrBody
  | rawText (t : String) : ErrBody

/-- The ways `summarize_text` fails after the POST returns.  Every case is
a raised `RuntimeError` in the source except `attrError`, which is an
uncaught `AttributeError`. -/
inductive SummErr where
  | httpError (status : Nat) (details : ErrBody) : SummErr
  | parseError : SummErr
  | unexpectedShape (data : JVal) : SummErr
  | attrError : SummErr

/-- The part of `summarize_text` after `data = resp.json()`: run the
`or`-chain, raise on a falsy result, else `content.strip()` (which
raises `AttributeError` when the chain value is not a string). -/
def normalizeResponse (data : JVal) : Except SummErr String :=
  match extractContent data with
  | Except.error _ => Except.error SummErr.attrError
  | Except.ok content =>
    if truthy content then
      match content with
      | JVal.str s => Except.ok (pyStrip s)
      | _ => Except.error SummErr.attrError
    else Except.error (SummErr.unexpectedShape data)

/-- An HTTP response as `summarize_text` observes it: status code, the
decoded JSON body when `resp.json()` succeeds, and the raw text. -/
structure HttpResponse where
  statusCode : Nat
  jsonBody : Option JVal
  rawText : String

/-- Details attached to a non-200 failure, from the source's
`try: err_json = resp.json() except Exception: err_json = resp.text`. -/
def respDetails (resp : HttpResponse) : ErrBody :=
  match resp.jsonBody with
  | some v => ErrBody.jsonBody v
  | none => ErrBody.rawText resp.rawText

/-- The response handling of `summarize_text`: any status other than 200
raises with the status and details; then a body that does not parse
raises the JSON-decode error; then the normalization chain runs. -/
def handleResponse (resp : HttpResponse) : Except SummErr String :=
  if resp.statusCode ≠ 200 then
    Except.error (SummErr.httpError resp.statusCode (respDetails resp))
  else
    match resp.jsonBody with
    | none => Except.error SummErr.parseError
    | some data => normalizeResponse data

/-! ## Request payload built by `summarize_text` -/

/-- One chat message of the request body. -/
structure Message where
  role : String
  content : String
deriving DecidableEq

/-- The JSON payload `summarize_text` posts.  The temperature is carried
opaquely (a type parameter) because its float value is only passed
through, never computed with. -/
structure Payload (T : Type) where
  model : String
  messages : List Message
  temperature : T
  max_tokens : Int
  stream : Bool
deriving DecidableEq

/-- The fixed system instruction of `summarize_text`. -/
def systemInstruction : String := "You are a world-class summarization assistant."

/-- Embedding of the `payload = {...}` dict of `summarize_text`. -/
def buildPayload {T : Type} (model prompt : String) (temperature : T)
    (max_tokens : Int) : Payload T :=
  { model := model
    messages := [⟨"system", systemInstruction⟩, ⟨"user", prompt⟩]
    temperature := temperature
    max_tokens := max_tokens
    stream := false }

/-! ## Client construction (`NvidiaLLMClient.__init__`) -/

/-- The process environment as read by `os.getenv`. -/
structure Env where
  nvidiaApiKey : Option String
  nvidiaApiBase : Option String
  nvidiaModel : Option String

/-- Embedding of `os.getenv(name, dflt)`. -/
def getenv (var : Option String) (dflt : String) : String := var.getD dflt

/-- Embedding of `arg or fallback` where `arg : Optional[str]`. -/
def argOr (arg : Option String) (fallback : String) : String :=
  match arg with
  | some s => pyOrStr s fallback
  | none => fallback

/-- The literal default the source passes for `NVIDIA_API_BASE`. -/
def defaultApiBase : String :=
  "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"

/-- The literal default the source passes for `NVIDIA_MODEL`. -/
def defaultModel : String := "llama-3_2-nemoretriever-300m-embed-v1"

/-- A constructed client: the four attributes `__init__` assigns. -/
structure Client where
  api_key : String
  api_base : String
  model : String
  timeout_sec : Int
deriving DecidableEq

/-- The two `ValueError`s `__init__` can raise. -/
inductive InitError where
  | missingApiKey : InitError
  | invalidApiBase : InitError
deriving DecidableEq

/-- Embedding of `NvidiaLLMClient.__init__`: resolve each attribute as
`arg or os.getenv(NAME, default)`, then validate. -/
def initClient (api_key api_base model : Option String) (timeout_sec : Int)
    (env : Env) : Except InitError Client :=
  let key := argOr api_key (getenv env.nvidiaApiKey "")
  let base := argOr api_base (getenv env.nvidiaApiBase defaultApiBase)
  let mdl := argOr model (getenv env.nvidiaModel defaultModel)
  if key = "" then Except.error InitError.missingApiKey
  else if ¬ (pyStartswith base "http" = true) then Except.error InitError.invalidApiBase
  else Except.ok ⟨key, base, mdl, timeout_sec⟩

/-! ## Structure of the built prompt

The fixed pieces of the f-string in `build_summarization_prompt`, named so
the final trimmed prompt can be described as a concatenation. -/

/-- The fixed text of the prompt up to the length guidance, as it survives
the final `strip()` (the leading newline of the f-string is gone). -/
def promptHeader : String :=
  "You are a helpful assistant that produces accurate, faithful summaries.\n\nGoal: Summarize the user\x27s document.\nTarget length: "

/-- The text that remains of `promptHeader` after its first character. -/
def promptHeaderTail : String :=
  "ou are a helpful assistant that produces accurate, faithful summaries.\n\nGoal: Summarize the user\x27s document.\nTarget length: "

/-- Fixed separator before the tone guidance. -/
def toneSep : String := "\nTone: "

/-- Fixed separator before the joined formatting instructions. -/
def fmtSep : String := "\nFormatting:\n- "

/-- Fixed separator before a non-empty document segment. -/
def docSepFull : String := "\n\nDocument:\n"

/-- What remains of the document header when the document segment is empty
and the final `strip()` eats the trailing newlines. -/
def docSepEmpty : String := "\n\nDocument:"

lemma promptHeader_eq : promptHeader.data = 'Y' :: promptHeaderTail.data := rfl

lemma dropWhile_header (R : List Char) :
    List.dropWhile wsChar ('\n' :: (promptHeader.data ++ R)) = promptHeader.data ++ R := by
  rw [promptHeader_eq, List.cons_append, List.dropWhile_cons,
    if_pos (show wsChar '\n' = true from rfl), List.dropWhile_cons,
    if_neg (show ¬ wsChar 'Y' = true by decide)]

lemma rdropWhile_append_last (A ds : List Char) (hne : ds ≠ [])
    (hlast : wsChar (ds.getLast hne) = false) :
    List.rdropWhile wsChar (A ++ ds) = A ++ ds := by
  apply List.rdropWhile_eq_self_iff.mpr
  intro hl
  rw [List.getLast_append' A ds hne, hlast]
  simp

/-- If the right part of an append ends in a non-whitespace character,
so does the whole append. -/
lemma ends_nonws_append (A B : List Char) (hne : B ≠ [])
    (h : ∀ hB : B ≠ [], wsChar (B.getLast hB) = false) :
    ∃ hne2 : A ++ B ≠ [], wsChar ((A ++ B).getLast hne2) = false := by
  have hAB : A ++ B ≠ [] := fun hcon => hne (List.append_eq_nil.mp hcon).2
  refine ⟨hAB, ?_⟩
  rw [List.getLast_append' A B hne]
  exact h hne

/-- Either the normalized document segment is empty, or it ends in a
non-whitespace character (it was stripped, or ends with the marker). -/
lemma docSegment_cases (doc : String) (mc : Int) :
    docSegment doc mc = "" ∨
      ∃ hne : (docSegment doc mc).data ≠ [],
        wsChar ((docSegment doc mc).data.getLast hne) = false := by
  unfold docSegment
  dsimp only
  split
  · right
    exact ends_nonws_append (pySliceTo (pyStrip (pyOrStr doc "")).data mc)
      truncationMarker.data (by decide) (fun hB => rfl)
  · by_cases hnil : (pyStrip (pyOrStr doc "")).data = []
    · left
      have : pyStrip (pyOrStr doc "") = "" := by
        cases hstrip : pyStrip (pyOrStr doc "") with
        | mk l => cases hstrip ▸ hnil; rfl
      exact this
    · right
      refine ⟨hnil, ?_⟩
      have h := List.rdropWhile_last_not wsChar
        (List.dropWhile wsChar (pyOrStr doc "").data) hnil
      rw [Bool.not_eq_true] at h
      exact h

lemma docSepFull_eq : docSepFull.data = docSepEmpty.data ++ ['\n'] := rfl

lemma docSepEmpty_last : ∀ h : docSepEmpty.data ≠ [],
    wsChar (docSepEmpty.data.getLast h) = false := fun _ => rfl

/-- The exact character content of the built prompt: fixed header, length
guidance, tone guidance, joined formatting instructions, then the document
section (whose trailing newline the final `strip()` removes). -/
lemma build_eq (doc l t : String) (bp it : Bool) (mc : Int) :
    (build_summarization_prompt doc l t bp it mc).data =
      promptHeader.data ++ ((dictGetD length_map l "about 150 words").data ++
        (toneSep.data ++ ((dictGetD tone_map t "neutral").data ++
        (fmtSep.data ++ ((String.intercalate " " (format_instructions bp it)).data ++
        (if docSegment doc mc = "" then docSepEmpty.data
         else docSepFull.data ++ (docSegment doc mc).data)))))) := by
  have hS : (build_summarization_prompt doc l t bp it mc).data =
      List.rdropWhile wsChar (List.dropWhile wsChar
        ('\n' :: (promptHeader.data ++ ((dictGetD length_map l "about 150 words").data ++
          (toneSep.data ++ ((dictGetD tone_map t "neutral").data ++
          (fmtSep.data ++ ((String.intercalate " " (format_instructions bp it)).data ++
          (docSepFull.data ++ ((docSegment doc mc).data ++ ['\n'])))))))))) := by
    unfold build_summarization_prompt pyStrip
    simp only [String.data_append, List.append_assoc, List.cons_append]
    rfl
  rw [hS, dropWhile_header]
  rcases docSegment_cases doc mc with hds | ⟨hne, hlast⟩
  · rw [if_pos hds, hds]
    rw [show ("" : String).data = ([] : List Char) from rfl, docSepFull_eq]
    simp only [List.nil_append, ← List.append_assoc]
    rw [List.rdropWhile_concat_pos wsChar _ '\n' rfl,
      List.rdropWhile_concat_pos wsChar _ '\n' rfl,
      rdropWhile_append_last _ docSepEmpty.data (by decide) (docSepEmpty_last _)]
  · have hnempty : ¬ docSegment doc mc = "" := by
      intro h
      apply hne
      rw [h]
    rw [if_neg hnempty]
    simp only [← List.append_assoc]
    rw [List.rdropWhile_concat_pos wsChar _ '\n' rfl,
      rdropWhile_append_last _ (docSegment doc mc).data hne hlast]

lemma isInfix_append_left (A : List Char) {x m : List Char} (h : x <:+: m) :
    x <:+: A ++ m := by
  obtain ⟨s, t, rfl⟩ := h
  exact ⟨A ++ s, t, by simp [List.append_assoc]⟩

lemma isInfix_self_append (x B : List Char) : x <:+: x ++ B :=
  ⟨[], B, by simp⟩

lemma isInfix_append_self (A x : List Char) : x <:+: A ++ x :=
  ⟨A, [], by simp⟩

/-- The built prompt contains the resolved length guidance. -/
lemma build_contains_lengthGuidance (doc l t : String) (bp it : Bool) (mc : Int) :
    StrContains (build_summarization_prompt doc l t bp it mc)
      (dictGetD length_map l "about 150 words") := by
  unfold StrContains
  rw [build_eq]
  exact isInfix_append_left _ (isInfix_self_append _ _)

/-- The built prompt contains the resolved tone guidance. -/
lemma build_contains_toneGuidance (doc l t : String) (bp it : Bool) (mc : Int) :
    StrContains (build_summarization_prompt doc l t bp it mc)
      (dictGetD tone_map t "neutral") := by
  unfold StrContains
  rw [build_eq]
  exact isInfix_append_left _ (isInfix_append_left _ (isInfix_append_left _
    (isInfix_self_append _ _)))

/-- The built prompt contains the space-joined formatting instructions. -/
lemma build_contains_joined (doc l t : String) (bp it : Bool) (mc : Int) :
    StrContains (build_summarization_prompt doc l t bp it mc)
      (String.intercalate " " (format_instructions bp it)) := by
  unfold StrContains
  rw [build_eq]
  exact isInfix_append_left _ (isInfix_append_left _ (isInfix_append_left _
    (isInfix_append_left _ (isInfix_append_left _ (isInfix_self_append _ _)))))

/-- The built prompt contains the normalized document segment. -/
lemma build_contains_docSegment (doc l t : String) (bp it : Bool) (mc : Int) :
    StrContains (build_summarization_prompt doc l t bp it mc) (docSegment doc mc) := by
  unfold StrContains
  rw [build_eq]
  by_cases hds : docSegment doc mc = ""
  · rw [hds]
    exact List.nil_infix
  · rw [if_neg hds]
    exact isInfix_append_left _ (isInfix_append_left _ (isInfix_append_left _
      (isInfix_append_left _ (isInfix_append_left _ (isInfix_append_left _
        (isInfix_append_self _ _))))))

/-- Substring containment transfers along infix containment. -/
lemma strContains_trans {s mid sub : String} (h1 : StrContains s mid)
    (h2 : StrContains mid sub) : StrContains s sub :=
  List.IsInfix.trans h2 h1

lemma pyOrStr_empty (s : String) : pyOrStr s "" = s := by
  by_cases h : s = "" <;> simp [pyOrStr, h]

lemma docSegment_eq_ite (doc : String) (mc : Int) :
    docSegment doc mc =
      if ((pyStrip doc).length : Int) > mc then
        String.mk (pySliceTo (pyStrip doc).data mc) ++ truncationMarker
      else pyStrip doc := by
  unfold docSegment
  rw [pyOrStr_empty]

lemma dictGetD_default (d : List (String × String)) (key dflt : String)
    (h : ∀ p ∈ d, p.fst ≠ key) : dictGetD d key dflt = dflt := by
  unfold dictGetD
  rw [List.find?_eq_none.mpr ?_]
  intro p hp
  simpa using h p hp

/-! ## Claims about the prompt builder -/

/-- C3: the length check of `build_summarization_prompt` is applied to the
stripped text; a stripped text longer than `max_chars` yields a document
segment equal to its first `max_chars` characters followed by the literal
truncation marker, and a stripped text of length at most `max_chars`
yields the stripped text itself, unchanged and marker-free, embedded
verbatim in the output. -/
theorem truncation_after_strip (doc l t : String) (bp it : Bool) (mc : Int) :
    (((pyStrip doc).length : Int) > mc →
      docSegment doc mc = String.mk (pySliceTo (pyStrip doc).data mc) ++ truncationMarker ∧
      StrContains (build_summarization_prompt doc l t bp it mc) (docSegment doc mc)) ∧
    (((pyStrip doc).length : Int) ≤ mc →
      docSegment doc mc = pyStrip doc ∧
      StrContains (build_summarization_prompt doc l t bp it mc) (pyStrip doc)) := by
  constructor
  · intro h
    refine ⟨?_, build_contains_docSegment doc l t bp it mc⟩
    rw [docSegment_eq_ite, if_pos h]
  · intro h
    have hseg : docSegment doc mc = pyStrip doc := by
      rw [docSegment_eq_ite, if_neg (not_lt.mpr h)]
    refine ⟨hseg, ?_⟩
    rw [← hseg]
    exact build_contains_docSegment doc l t bp it mc

/-- Witness for C3: a stripped six-character text with `max_chars = 3` is
cut and marked; a three-character text with `max_chars = 5` passes through. -/
theorem truncation_after_strip_witness :
    (docSegment "  abcdef  " 3 =
        String.mk (pySliceTo (pyStrip "  abcdef  ").data 3) ++ truncationMarker ∧
      StrContains (build_summarization_prompt "  abcdef  " "short" "neutral" true true 3)
        (docSegment "  abcdef  " 3)) ∧
    (docSegment "abc" 5 = pyStrip "abc" ∧
      StrContains (build_summarization_prompt "abc" "short" "neutral" true true 5)
        (pyStrip "abc")) := by
  exact ⟨(truncation_after_strip "  abcdef  " "short" "neutral" true true 3).1 (by decide),
    (truncation_after_strip "abc" "short" "neutral" true true 5).2 (by decide)⟩

/-- C4: the output of `build_summarization_prompt` contains the resolved
length and tone guidance; the fixed tables map the three length and three
tone enum values to their exact guidance strings; any other value falls
back to the default length guidance `"about 150 words"`, and tone to the
literal `"neutral"`, without failing. -/
theorem guidance_substrings (doc l t : String) (bp it : Bool) (mc : Int) :
    StrContains (build_summarization_prompt doc l t bp it mc)
      (dictGetD length_map l "about 150 words") ∧
    StrContains (build_summarization_prompt doc l t bp it mc)
      (dictGetD tone_map t "neutral") ∧
    dictGetD length_map "short" "about 150 words" = "about 120-150 words" ∧
    dictGetD length_map "medium" "about 150 words" = "about 200-300 words" ∧
    dictGetD length_map "detailed" "about 150 words" = "about 400-600 words" ∧
    dictGetD tone_map "neutral" "neutral" = "neutral, objective" ∧
    dictGetD tone_map "professional" "neutral" = "concise, business-professional" ∧
    dictGetD tone_map "casual" "neutral" = "friendly, plain-language" ∧
    (l ≠ "short" → l ≠ "medium" → l ≠ "detailed" →
      dictGetD length_map l "about 150 words" = "about 150 words") ∧
    (t ≠ "neutral" → t ≠ "professional" → t ≠ "casual" →
      dictGetD tone_map t "neutral" = "neutral") := by
  refine ⟨build_contains_lengthGuidance doc l t bp it mc,
    build_contains_toneGuidance doc l t bp it mc,
    rfl, rfl, rfl, rfl, rfl, rfl, ?_, ?_⟩
  · intro h1 h2 h3
    apply dictGetD_default
    intro p hp
    simp only [length_map, List.mem_cons, List.not_mem_nil, or_false] at hp
    rcases hp with rfl | rfl | rfl
    · exact fun h => h1 h.symm
    · exact fun h => h2 h.symm
    · exact fun h => h3 h.symm
  · intro h1 h2 h3
    apply dictGetD_default
    intro p hp
    simp only [tone_map, List.mem_cons, List.not_mem_nil, or_false] at hp
    rcases hp with rfl | rfl | rfl
    · exact fun h => h1 h.symm
    · exact fun h => h2 h.symm
    · exact fun h => h3 h.symm

/-- Witness for C4: an unknown length and tone fall back to the defaults,
which appear in the output; a known value appears as its table entry. -/
theorem guidance_substrings_witness :
    StrContains (build_summarization_prompt "doc" "epic" "snarky" true true 100)
      "about 150 words" ∧
    StrContains (build_summarization_prompt "doc" "epic" "snarky" true true 100)
      "neutral" ∧
    StrContains (build_summarization_prompt "doc" "short" "casual" true true 100)
      "about 120-150 words" := by
  obtain ⟨c1, c2, _, _, _, _, _, _, c9, c10⟩ :=
    guidance_substrings "doc" "epic" "snarky" true true 100
  obtain ⟨d1, _, d3, _, _, _, _, _, _, _⟩ :=
    guidance_substrings "doc" "short" "casual" true true 100
  refine ⟨?_, ?_, ?_⟩
  · rw [← c9 (by decide) (by decide) (by decide)]
    exact c1
  · rw [← c10 (by decide) (by decide) (by decide)]
    exact c2
  · rw [← d3]
    exact d1

/-- C9: `build_summarization_prompt` is a total deterministic function; on
every well-typed input, the empty document included, it returns a string,
and that string starts with the fixed preamble (so no step raised). -/
theorem build_total_and_deterministic (doc l t : String) (bp it : Bool) (mc : Int) :
    ∃ s : String, build_summarization_prompt doc l t bp it mc = s ∧
      "You are a helpful assistant".data <+: s.data := by
  refine ⟨_, rfl, ?_⟩
  rw [build_eq]
  exact List.IsPrefix.trans (by decide) (List.prefix_append _ _)

/-- The joined instruction string always contains the two fixed
instructions, and the optional ones when their flag is set. -/
lemma joined_contains (bp it : Bool) :
    StrContains (String.intercalate " " (format_instructions bp it)) speculationInstruction ∧
    StrContains (String.intercalate " " (format_instructions bp it)) summarizableInstruction ∧
    (it = true → StrContains (String.intercalate " " (format_instructions bp it)) titleInstruction) ∧
    (bp = true → StrContains (String.intercalate " " (format_instructions bp it)) bulletInstruction) := by
  cases bp <;> cases it <;>
    refine ⟨by decide, by decide, ?_, ?_⟩ <;> intro h <;>
    first
      | exact absurd h (by decide)
      | decide

/-- C5 (amended): the assembled formatting-instruction list holds the
title instruction iff `include_title` and the bullet instruction iff
`bullet_points`, and always holds the two fixed instructions; the output
always contains the joined instruction list, hence every included
instruction.  (The unamended only-if direction at the output-string level
fails when the document text itself supplies the instruction text.) -/
theorem formatting_instructions_spec (doc l t : String) (bp it : Bool) (mc : Int) :
    (titleInstruction ∈ format_instructions bp it ↔ it = true) ∧
    (bulletInstruction ∈ format_instructions bp it ↔ bp = true) ∧
    speculationInstruction ∈ format_instructions bp it ∧
    summarizableInstruction ∈ format_instructions bp it ∧
    StrContains (build_summarization_prompt doc l t bp it mc)
      (String.intercalate " " (format_instructions bp it)) ∧
    (it = true → StrContains (build_summarization_prompt doc l t bp it mc) titleInstruction) ∧
    (bp = true → StrContains (build_summarization_prompt doc l t bp it mc) bulletInstruction) ∧
    StrContains (build_summarization_prompt doc l t bp it mc) speculationInstruction ∧
    StrContains (build_summarization_prompt doc l t bp it mc) summarizableInstruction := by
  obtain ⟨j1, j2, j3, j4⟩ := joined_contains bp it
  refine ⟨?_, ?_, ?_, ?_, build_contains_joined doc l t bp it mc,
    fun h => strContains_trans (build_contains_joined doc l t bp it mc) (j3 h),
    fun h => strContains_trans (build_contains_joined doc l t bp it mc) (j4 h),
    strContains_trans (build_contains_joined doc l t bp it mc) j1,
    strContains_trans (build_contains_joined doc l t bp it mc) j2⟩
  · cases bp <;> cases it <;> decide
  · cases bp <;> cases it <;> decide
  · cases bp <;> cases it <;> decide
  · cases bp <;> cases it <;> decide

/-- Witness for C5: with both flags on, the output contains both optional
instructions. -/
theorem formatting_instructions_spec_witness :
    StrContains (build_summarization_prompt "d" "short" "neutral" true true 50)
      titleInstruction ∧
    StrContains (build_summarization_prompt "d" "short" "neutral" true true 50)
      bulletInstruction := by
  have h := formatting_instructions_spec "d" "short" "neutral" true true 50
  exact ⟨h.2.2.2.2.2.1 rfl, h.2.2.2.2.2.2.1 rfl⟩

/-- Counterexample to C5 as stated: with `include_title = false` the output
can still contain the title instruction, namely when the document text is
that instruction, so "contains the instruction iff the flag is true" fails. -/
theorem title_text_via_document_text :
    StrContains (build_summarization_prompt
      "Start with a single-line Title that captures the main topic."
      "short" "neutral" false false 12000) titleInstruction := by
  have h := build_contains_docSegment
    "Start with a single-line Title that captures the main topic."
    "short" "neutral" false false 12000
  have hseg : docSegment
      "Start with a single-line Title that captures the main topic." 12000 =
      titleInstruction := by decide
  rw [hseg] at h
  exact h

/-! ## Claims about the client -/

/-- C1 (amended): on a decoded JSON object body every lookup of the
`or`-chain evaluates safely, the chain value is the first truthy lookup
in path order, and a successful call returns exactly that value, which is
then a non-empty string, trimmed of surrounding whitespace.  (On a
non-object body the top-level `.get` lookups raise instead.) -/
theorem normalize_object_body_spec (fields : List (String × JVal)) :
    extractContent (JVal.obj fields) = Except.ok (chainVal fields) ∧
    ∀ s, normalizeResponse (JVal.obj fields) = Except.ok s →
      ∃ tx, chainVal fields = JVal.str tx ∧ tx ≠ "" ∧ s = pyStrip tx := by
  have hex : extractContent (JVal.obj fields) = Except.ok (chainVal fields) := by
    unfold extractContent chainVal topGet pyOr
    dsimp only
    by_cases h1 : truthy (_get_nested (JVal.obj fields) pathA) = true
    · rw [if_pos h1, if_pos h1]
    · rw [if_neg h1, if_neg h1]
      by_cases h2 : truthy (_get_nested (JVal.obj fields) pathB) = true
      · rw [if_pos h2, if_pos h2]
      · rw [if_neg h2, if_neg h2]
        by_cases h3 : truthy (objGet fields "output_text") = true
        · rw [if_pos h3, if_pos h3]
        · rw [if_neg h3, if_neg h3]
  refine ⟨hex, ?_⟩
  intro s hs
  unfold normalizeResponse at hs
  rw [hex] at hs
  dsimp only at hs
  by_cases ht : truthy (chainVal fields) = true
  · rw [if_pos ht] at hs
    cases hcv : chainVal fields with
    | null => rw [hcv] at ht; exact absurd ht (by decide)
    | bool b => rw [hcv] at hs; exact absurd hs (by simp)
    | num n => rw [hcv] at hs; exact absurd hs (by simp)
    | str tx =>
      rw [hcv] at hs ht
      refine ⟨tx, rfl, ?_, ?_⟩
      · simpa [truthy] using ht
      · injection hs with h
        exact h.symm
    | arr elems => rw [hcv] at hs; exact absurd hs (by simp)
    | obj fs => rw [hcv] at hs; exact absurd hs (by simp)
  · rw [if_neg ht] at hs
    exact absurd hs (by simp)

/-- Witness for C1 (amended): a body `{"text": "  hi  "}` is accepted and
the result is the trimmed non-empty string found at the last path. -/
theorem normalize_object_body_spec_witness :
    normalizeResponse (JVal.obj [("text", JVal.str "  hi  ")]) = Except.ok "hi" ∧
    ∃ tx, chainVal [("text", JVal.str "  hi  ")] = JVal.str tx ∧ tx ≠ "" ∧
      ("hi" : String) = pyStrip tx := by
  have h := (normalize_object_body_spec [("text", JVal.str "  hi  ")]).2 "hi" (by rfl)
  exact ⟨by rfl, h⟩

/-- Counterexample to C1 as stated: on the decoded JSON body `[]` (a list,
so a valid decoded body) the top-level `data.get("output_text")` lookup
raises `AttributeError` instead of failing safely, so the call neither
returns nor reports an unexpected shape. -/
theorem normalize_array_body_raises :
    normalizeResponse (JVal.arr []) = Except.error SummErr.attrError ∧
    normalizeResponse (JVal.arr []) ≠
      Except.error (SummErr.unexpectedShape (JVal.arr [])) := by
  refine ⟨rfl, ?_⟩
  intro h
  rw [show normalizeResponse (JVal.arr []) = Except.error SummErr.attrError from rfl] at h
  injection h with h2
  cases h2

/-- C6: every response whose status is not a success status makes
`summarize_text` raise the HTTP error carrying that status together with
the parsed JSON body when the body parses, else the raw text; there is no
retry (the handler returns this error directly). -/
theorem http_error_on_non_success (resp : HttpResponse)
    (h : resp.statusCode < 200 ∨ 299 < resp.statusCode) :
    handleResponse resp =
      Except.error (SummErr.httpError resp.statusCode (respDetails resp)) := by
  have hne : resp.statusCode ≠ 200 := by
    rcases h with h | h <;> omega
  unfold handleResponse
  rw [if_pos hne]

/-- Witness for C6: a 503 response with an unparsable body raises the HTTP
error with status 503 carrying the raw text. -/
theorem http_error_on_503_witness :
    handleResponse ⟨503, none, "Service Unavailable"⟩ =
      Except.error (SummErr.httpError 503 (ErrBody.rawText "Service Unavailable")) :=
  http_error_on_non_success ⟨503, none, "Service Unavailable"⟩ (Or.inr (by decide))

/-- C7 (amended): a response with status exactly 200 whose body parses as
JSON and on which the lookup chain evaluates safely to a falsy value (no
path yields a non-empty string or any other truthy value) raises the
unexpected-shape error carrying the full decoded body.  (Statuses other
than 200, the other 2xx success statuses included, raise the HTTP error
instead.) -/
theorem unexpected_shape_on_200 (resp : HttpResponse) (data v : JVal)
    (h200 : resp.statusCode = 200) (hjson : resp.jsonBody = some data)
    (hsafe : extractContent data = Except.ok v) (hfalsy : truthy v = false) :
    handleResponse resp = Except.error (SummErr.unexpectedShape data) := by
  unfold handleResponse
  rw [if_neg (by simp [h200])]
  rw [hjson]
  unfold normalizeResponse
  dsimp only
  rw [hsafe]
  dsimp only
  rw [if_neg (by simp [hfalsy])]

/-- Witness for C7 (amended): a 200 response with body `{}` (no recognized
path) raises the unexpected-shape error carrying `{}`. -/
theorem unexpected_shape_on_200_witness :
    handleResponse ⟨200, some (JVal.obj []), "{}"⟩ =
      Except.error (SummErr.unexpectedShape (JVal.obj [])) :=
  unexpected_shape_on_200 ⟨200, some (JVal.obj []), "{}"⟩ (JVal.obj []) JVal.null
    rfl rfl rfl rfl

/-- Counterexample to C7 as stated: 201 is a success status, yet a 201
response whose parsed body matches no recognized path raises the HTTP
error (the code compares the status against exactly 200), not the
unexpected-shape error. -/
theorem success_201_not_unexpected_shape :
    handleResponse ⟨201, some (JVal.obj []), "{}"⟩ =
      Except.error (SummErr.httpError 201 (ErrBody.jsonBody (JVal.obj []))) ∧
    handleResponse ⟨201, some (JVal.obj []), "{}"⟩ ≠
      Except.error (SummErr.unexpectedShape (JVal.obj [])) := by
  refine ⟨rfl, ?_⟩
  intro h
  rw [show handleResponse ⟨201, some (JVal.obj []), "{}"⟩ =
    Except.error (SummErr.httpError 201 (ErrBody.jsonBody (JVal.obj []))) from rfl] at h
  injection h with h2
  cases h2

/-- C8 (amended): the request body is exactly the five fields model,
messages, temperature, max_tokens and stream, where messages is the
two-entry sequence of a system turn carrying the fixed instruction
`"You are a world-class summarization assistant."` and a user turn
carrying the caller prompt, and stream is false. -/
theorem request_payload_shape {T : Type} (model prompt : String) (temperature : T)
    (max_tokens : Int) :
    (buildPayload model prompt temperature max_tokens).model = model ∧
    (buildPayload model prompt temperature max_tokens).messages =
      [⟨"system", systemInstruction⟩, ⟨"user", prompt⟩] ∧
    (buildPayload model prompt temperature max_tokens).temperature = temperature ∧
    (buildPayload model prompt temperature max_tokens).max_tokens = max_tokens ∧
    (buildPayload model prompt temperature max_tokens).stream = false :=
  ⟨rfl, rfl, rfl, rfl, rfl⟩

/-- Counterexample to C8 as stated: the system turn carries
`"You are a world-class summarization assistant."`, not the claimed
literal `"you are a summarization assistant"`. -/
theorem system_instruction_literal_differs :
    (buildPayload "m" "p" (0 : Int) 5).messages ≠
      [⟨"system", "you are a summarization assistant"⟩, ⟨"user", "p"⟩] := by
  decide

/-- C2 (amended): construction validates eagerly, as a pure computation
over arguments and environment (no I/O): it fails with the missing-key
error iff the resolved api_key (argument, else environment) is empty, and
with the invalid-base error when the resolved api_base does not start
with `"http"`; it succeeds exactly when neither holds.  (An empty api_key
argument alone does not force a failure: the environment value can fill
it in.) -/
theorem init_validation_spec (api_key api_base model : Option String)
    (timeout_sec : Int) (env : Env) :
    (argOr api_key (getenv env.nvidiaApiKey "") = "" →
      initClient api_key api_base model timeout_sec env =
        Except.error InitError.missingApiKey) ∧
    (argOr api_key (getenv env.nvidiaApiKey "") ≠ "" →
      pyStartswith (argOr api_base (getenv env.nvidiaApiBase defaultApiBase)) "http" = false →
      initClient api_key api_base model timeout_sec env =
        Except.error InitError.invalidApiBase) ∧
    ((∃ c, initClient api_key api_base model timeout_sec env = Except.ok c) ↔
      (argOr api_key (getenv env.nvidiaApiKey "") ≠ "" ∧
        pyStartswith (argOr api_base (getenv env.nvidiaApiBase defaultApiBase)) "http" = true)) := by
  unfold initClient
  dsimp only
  refine ⟨?_, ?_, ?_⟩
  · intro h
    rw [if_pos h]
  · intro h1 h2
    rw [if_neg h1, if_pos (by simp [h2])]
  · constructor
    · rintro ⟨c, hc⟩
      by_cases h1 : argOr api_key (getenv env.nvidiaApiKey "") = ""
      · rw [if_pos h1] at hc
        exact absurd hc (by simp)
      · refine ⟨h1, ?_⟩
        rw [if_neg h1] at hc
        by_cases h2 : pyStartswith (argOr api_base (getenv env.nvidiaApiBase defaultApiBase)) "http" = true
        · exact h2
        · rw [if_pos (by simp [h2])] at hc
          exact absurd hc (by simp)
    · rintro ⟨h1, h2⟩
      rw [if_neg h1, if_neg (by simp [h2])]
      exact ⟨_, rfl⟩

/-- Witness for C2 (amended): with an empty key argument and no
environment value, construction fails with the missing-key error; with a
non-empty key and no base anywhere, the broken built-in base default
fails the `"http"` check. -/
theorem init_validation_spec_witness :
    initClient (some "") none none 60 ⟨none, none, none⟩ =
      Except.error InitError.missingApiKey ∧
    initClient (some "k") none none 60 ⟨none, none, none⟩ =
      Except.error InitError.invalidApiBase := by
  exact ⟨(init_validation_spec (some "") none none 60 ⟨none, none, none⟩).1 (by decide),
    (init_validation_spec (some "k") none none 60 ⟨none, none, none⟩).2.1
      (by decide) (by decide)⟩

/-- Counterexample to C2 as stated: constructing with an explicitly empty
api_key succeeds (no error is raised) when the `NVIDIA_API_KEY`
environment value is non-empty, because the empty argument is silently
replaced by the environment value. -/
theorem init_empty_key_env_fallback_succeeds :
    initClient (some "") (some "https://api.example/v1") (some "m") 60
      ⟨some "envkey", none, none⟩ =
    Except.ok ⟨"envkey", "https://api.example/v1", "m", 60⟩ := by
  rfl

/-- C10: each of the api_key, api_base and model arguments, when `None` or
empty, is silently replaced by the corresponding environment value or the
built-in literal default, and the missing-key error is raised on an empty
api_key argument exactly when the `NVIDIA_API_KEY` environment value is
empty or unset. -/
theorem init_env_fallback_spec (api_key api_base model : Option String)
    (timeout_sec : Int) (env : Env) :
    (∀ c, initClient api_key api_base model timeout_sec env = Except.ok c →
      c.api_key = argOr api_key (getenv env.nvidiaApiKey "") ∧
      c.api_base = argOr api_base (getenv env.nvidiaApiBase defaultApiBase) ∧
      c.model = argOr model (getenv env.nvidiaModel defaultModel)) ∧
    (initClient (some "") api_base model timeout_sec env =
        Except.error InitError.missingApiKey ↔
      getenv env.nvidiaApiKey "" = "") := by
  constructor
  · intro c hc
    unfold initClient at hc
    dsimp only at hc
    by_cases h1 : argOr api_key (getenv env.nvidiaApiKey "") = ""
    · rw [if_pos h1] at hc
      exact absurd hc (by simp)
    · rw [if_neg h1] at hc
      by_cases h2 : pyStartswith (argOr api_base (getenv env.nvidiaApiBase defaultApiBase)) "http" = true
      · rw [if_neg (by simp [h2])] at hc
        injection hc with h
        rw [← h]
        exact ⟨rfl, rfl, rfl⟩
      · rw [if_pos (by simp [h2])] at hc
        exact absurd hc (by simp)
  · have hkey : argOr (some "") (getenv env.nvidiaApiKey "") = getenv env.nvidiaApiKey "" := rfl
    unfold initClient
    dsimp only
    rw [hkey]
    constructor
    · intro h
      by_cases hk : getenv env.nvidiaApiKey "" = ""
      · exact hk
      · exfalso
        rw [if_neg hk] at h
        by_cases h2 : pyStartswith (argOr api_base (getenv env.nvidiaApiBase defaultApiBase)) "http" = true
        · rw [if_neg (by simp [h2])] at h
          exact absurd h (by simp)
        · rw [if_pos (by simp [h2])] at h
          injection h with h3
          cases h3
    · intro hk
      rw [if_pos hk]

/-- Witness for C10: a client built with every argument `None` and a full
environment takes all three values from the environment; and with an
empty api_key argument, the missing-key error appears exactly when the
environment key is unset. -/
theorem init_env_fallback_spec_witness :
    (⟨"ek", "https://e/v1", "em", 60⟩ : Client).api_key =
      argOr none (getenv (some "ek") "") ∧
    (⟨"ek", "https://e/v1", "em", 60⟩ : Client).api_base =
      argOr none (getenv (some "https://e/v1") defaultApiBase) ∧
    (⟨"ek", "https://e/v1", "em", 60⟩ : Client).model =
      argOr none (getenv (some "em") defaultModel) ∧
    (initClient (some "") none none 60 ⟨none, none, none⟩ =
        Except.error InitError.missingApiKey ↔
      getenv (none : Option String) "" = "") := by
  have h := init_env_fallback_spec none none none 60 ⟨some "ek", some "https://e/v1", some "em"⟩
  have h1 := h.1 ⟨"ek", "https://e/v1", "em", 60⟩ (by rfl)
  have h2 := (init_env_fallback_spec none none none 60 ⟨none, none, none⟩).2
  exact ⟨h1.1, h1.2.1, h1.2.2, h2⟩

end DocSummary
